import Mathlib

/-!
Shallow embedding of `pyeasee/charger.py` (the `Charger` façade and its record
types `ChargerState`, `ChargerConfig`, `ChargerSchedule`, `ChargerSession`,
plus the enum tables `STATUS`, `NODE_TYPE`, `PHASE_MODE`,
`REASON_FOR_NO_CURRENT` and the access-level table of `set_access`).

JSON payloads are association lists `List (String × Json)`; Python dict
lookup is first-match lookup, dict-literal merge `\x7b**d, "k": v\x7d` is
`dictSet` (replace in place when the key exists, append otherwise).
Fallible Python code (`d[k]` raising `KeyError`, `float(None)` raising
`TypeError`, the transport raising `NotFoundException`) is modelled with
`Except`.  `async` is erased: every method is a pure function from the
response of its single transport call to its result, with the outbound
request data made explicit where a claim is about it.
-/

namespace Pyeasee

/-- A JSON value as Python sees it: `None`, `int`, `float`, `str`, `bool`.
Floats are carried as rationals (the claims never exercise rounding). -/
inductive Json where
  | null : Json
  | int (n : Int) : Json
  | float (q : Rat) : Json
  | str (s : String) : Json
  | bool (b : Bool) : Json
deriving DecidableEq, Repr

/-- A Python dict decoded from JSON: an association list, first match wins. -/
abbrev Payload := List (String × Json)

/-- Python errors raised by the code under study. -/
inductive PyError where
  | keyError (k : Json) : PyError
  | typeError : PyError
  | valueError : PyError
deriving DecidableEq, Repr

/-- Python dict lookup `d[k]` / `d.get(k)` as an `Option`. -/
def pylookup (p : Payload) (k : String) : Option Json :=
  match p with
  | [] => none
  | (k', v) :: rest => if k = k' then some v else pylookup rest k

/-- Python subscript `d[k]`: `KeyError` when the key is absent. -/
def pysub (p : Payload) (k : String) : Except PyError Json :=
  match pylookup p k with
  | some v => .ok v
  | none => .error (.keyError (.str k))

/-- Keys of a payload. -/
def keys (p : Payload) : List String := p.map Prod.fst

/-- Does the payload have the key? -/
def hasKey (p : Payload) (k : String) : Bool := (pylookup p k).isSome

/-- Replace every binding of `k` by `v` (payloads from JSON have unique keys,
so this is ordinary in-place dict update). -/
def setAll : Payload → String → Json → Payload
  | [], _, _ => []
  | (k', v') :: rest, k, v => (k', if k = k' then v else v') :: setAll rest k v

/-- Python dict-literal override `\x7b**p, k: v\x7d` for one key: keep the key's
position when present, append at the end otherwise. -/
def dictSet (p : Payload) (k : String) (v : Json) : Payload :=
  if hasKey p k then setAll p k v else p ++ [(k, v)]

/-- Python `str()` / f-string interpolation of the values the claims touch.
(`None` renders as `"None"`, ints in decimal with a leading `-` when negative,
bools as `True`/`False`; float rendering is approximated by `Rat`'s and is
exercised by no claim.) -/
def pyStr : Json → String
  | .null => "None"
  | .int n => toString n
  | .float q => toString q
  | .str s => s
  | .bool b => if b then "True" else "False"

/-- Source table `STATUS` (charger.py lines 11-19). -/
def STATUS : List (Int × String) :=
  [(0, "OFFLINE"),
   (1, "DISCONNECTED"),
   (2, "AWAITING_START"),
   (3, "CHARGING"),
   (4, "COMPLETED"),
   (5, "ERROR"),
   (6, "READY_TO_CHARGE")]

/-- Source table `NODE_TYPE` (charger.py line 21). -/
def NODE_TYPE : List (Int × String) := [(1, "Master"), (2, "Extender")]

/-- Source table `PHASE_MODE` (charger.py line 23). -/
def PHASE_MODE : List (Int × String) :=
  [(1, "Locked to single phase"), (2, "Auto"), (3, "Locked to three phase")]

/-- Source table `REASON_FOR_NO_CURRENT` (charger.py lines 25-42); the Python
dict has the key `None` alongside int keys, so keys are `Option Int`. -/
def REASON_FOR_NO_CURRENT : List (Option Int × String) :=
  [(none, "No reason"),
   (some 0, "No reason, charging or ready to charge"),
   (some 1, "Charger paused"),
   (some 2, "Charger paused"),
   (some 3, "Charger paused"),
   (some 4, "Charger paused"),
   (some 5, "Charger paused"),
   (some 6, "Charger paused"),
   (some 9, "Error no current"),
   (some 50, "Secondary unit not requesting current or no car connected"),
   (some 51, "Charger paused"),
   (some 52, "Charger paused"),
   (some 53, "Charger disabled"),
   (some 54, "Waiting for schedule/auth"),
   (some 55, "Pending auth")]

/-- First-match lookup in an `Int`-keyed table. -/
def tlookup : List (Int × String) → Int → Option String
  | [], _ => none
  | (k, v) :: rest, n => if n = k then some v else tlookup rest n

/-- First-match lookup in the `Option Int`-keyed reason table. -/
def rlookup : List (Option Int × String) → Option Int → Option String
  | [], _ => none
  | (k, v) :: rest, n => if n = k then some v else rlookup rest n

/-- Python dict subscript on an int-keyed table applied to a JSON value,
with Python's numeric-equality quirks (`True == 1`, `3.0 == 3`); any other
value is simply not a key. -/
def pyDictGetInt (d : List (Int × String)) (v : Json) : Option String :=
  match v with
  | .int n => tlookup d n
  | .bool b => tlookup d (if b then 1 else 0)
  | .float q => if q.den = 1 then tlookup d q.num else none
  | _ => none

/-- The hashable key a JSON value presents to the reason dict
(`None` is a key of that dict; numeric equality as above). -/
def reasonKey : Json → Option (Option Int)
  | .null => some none
  | .int n => some (some n)
  | .bool b => some (some (if b then 1 else 0))
  | .float q => if q.den = 1 then some (some q.num) else none
  | .str _ => none

/-- Model of `REASON_FOR_NO_CURRENT.get(v, "Unknown")` (charger.py line 53). -/
def reasonLabel (v : Json) : String :=
  match reasonKey v with
  | some k => (rlookup REASON_FOR_NO_CURRENT k).getD "Unknown"
  | none => "Unknown"

/-- Model of `ChargerState.__init__` (charger.py lines 48-60): decoded mode replaces
`chargerOpMode` via `STATUS[...]` and `reasonForNoCurrent` with
`f"(\x7bcode\x7d) \x7blabel-or-Unknown\x7d"`; raw mode only normalizes a null
`reasonForNoCurrent` to the literal string `"none"`. -/
def ChargerState.make : Payload → Bool → Except PyError Payload
  | state, false =>
    match pylookup state "chargerOpMode" with
    | none => .error (.keyError (.str "chargerOpMode"))
    | some op =>
      match pyDictGetInt STATUS op with
      | none => .error (.keyError op)
      | some opLabel =>
        match pylookup state "reasonForNoCurrent" with
        | none => .error (.keyError (.str "reasonForNoCurrent"))
        | some r =>
          .ok (dictSet (dictSet state "chargerOpMode" (.str opLabel))
                "reasonForNoCurrent" (.str ("(" ++ pyStr r ++ ") " ++ reasonLabel r)))
  | state, true =>
    match pylookup state "reasonForNoCurrent" with
    | none => .error (.keyError (.str "reasonForNoCurrent"))
    | some r =>
      .ok (dictSet state "reasonForNoCurrent" (if r = .null then .str "none" else r))

/-- Model of `ChargerConfig.__init__` (charger.py lines 66-75): decoded mode replaces
`localNodeType` via `NODE_TYPE[...]` and `phaseMode` via `PHASE_MODE[...]`;
raw mode copies the payload unchanged. -/
def ChargerConfig.make : Payload → Bool → Except PyError Payload
  | config, false =>
    match pylookup config "localNodeType" with
    | none => .error (.keyError (.str "localNodeType"))
    | some nt =>
      match pyDictGetInt NODE_TYPE nt with
      | none => .error (.keyError nt)
      | some ntLabel =>
        match pylookup config "phaseMode" with
        | none => .error (.keyError (.str "phaseMode"))
        | some pm =>
          match pyDictGetInt PHASE_MODE pm with
          | none => .error (.keyError pm)
          | some pmLabel =>
            .ok (dictSet (dictSet config "localNodeType" (.str ntLabel))
                  "phaseMode" (.str pmLabel))
  | config, true => .ok config

/-- Model of `ChargerSchedule.__init__` (charger.py lines 81-88): projects the four
fields with `.get`, so a missing field becomes `None`; never fails. -/
def ChargerSchedule.make (schedule : Payload) : Payload :=
  [("id", (pylookup schedule "id").getD .null),
   ("chargeStartTime", (pylookup schedule "chargeStartTime").getD .null),
   ("chargeStopTime", (pylookup schedule "chargeStopTime").getD .null),
   ("repeat", (pylookup schedule "repeat").getD .null)]

/-- Value of a digit list read most-significant first. -/
def digitsValMSF (cs : List Char) : Option Nat :=
  cs.foldlM (fun acc c => if c.isDigit then some (acc * 10 + (c.toNat - 48)) else none) 0

/-- Split a character list at the first dot. -/
def splitDot : List Char → List Char × Option (List Char)
  | [] => ([], none)
  | c :: rest =>
    if c = '.' then ([], some rest)
    else
      let (a, b) := splitDot rest
      (c :: a, b)

/-- Python `float(s)` on a plain decimal string `[+-]digits[.digits]`
(exotic accepted forms — exponents, `inf`, `nan`, underscores, surrounding
whitespace — are not modelled; no claim exercises them). -/
def parsePyFloat (s : String) : Option Rat :=
  let (sign, body) : Int × List Char :=
    match s.data with
    | '-' :: rest => (-1, rest)
    | '+' :: rest => (1, rest)
    | cs => (1, cs)
  let (ip, fp) := splitDot body
  match fp with
  | none =>
    if ip = [] then none
    else (digitsValMSF ip).map (fun n => (sign * n : Int))
  | some fpart =>
    if ip = [] ∧ fpart = [] then none
    else
      match digitsValMSF ip, digitsValMSF fpart with
      | some n, some f =>
        some ((sign : Rat) * ((n : Rat) + (f : Rat) / ((10 : Rat) ^ fpart.length)))
      | _, _ => none

/-- Python `float(v)`: ints and bools widen, strings parse (`ValueError` on a
malformed string), `None` raises `TypeError`. -/
def pyFloat : Json → Except PyError Json
  | .int n => .ok (.float n)
  | .float q => .ok (.float q)
  | .bool b => .ok (.float (if b then 1 else 0))
  | .str s =>
    match parsePyFloat s with
    | some q => .ok (.float q)
    | none => .error .valueError
  | .null => .error .typeError

/-- Model of `ChargerSession.__init__` (charger.py lines 94-100): projects the three
fields with `.get`, forcing `kiloWattHours` through `float(...)`. -/
def ChargerSession.make (session : Payload) : Except PyError Payload :=
  match pyFloat ((pylookup session "kiloWattHours").getD .null) with
  | .error e => .error e
  | .ok kwh =>
    .ok [("carConnected", (pylookup session "carConnected").getD .null),
         ("carDisconnected", (pylookup session "carDisconnected").getD .null),
         ("kiloWattHours", kwh)]

/-- Failure modes of the transport collaborator (`easee.get`/`.json()` etc.):
the distinguished `NotFoundException` plus a general failure carrying a
detail string (exceptions module is an external collaborator). -/
inductive TransportError where
  | notFound : TransportError
  | failure (detail : String) : TransportError
deriving DecidableEq, Repr

/-- Model of `Charger.get_basic_charge_plan` (charger.py lines 161-170): the GET plus
JSON decode either yields a payload or raises; `NotFoundException` is caught
and turned into `None`, every other failure propagates, and on success the
payload is wrapped in a `ChargerSchedule`. -/
def get_basic_charge_plan (resp : Except TransportError Payload) :
    Except TransportError (Option Payload) :=
  match resp with
  | .ok plan => .ok (some (ChargerSchedule.make plan))
  | .error .notFound => .ok none
  | .error e => .error e

/-- The `Union[int, str]` argument of `set_access`. -/
inductive AccessValue where
  | int (n : Int) : AccessValue
  | str (s : String) : AccessValue
deriving DecidableEq, Repr

/-- An `AccessValue` as the JSON value it would present as a dict key. -/
def AccessValue.toJson : AccessValue → Json
  | .int n => .int n
  | .str s => .str s

/-- The inline access-level dict of `set_access` (charger.py lines 269-276). -/
def accessTable : List (AccessValue × Int) :=
  [(.int 1, 1), (.int 2, 2), (.int 3, 3),
   (.str "open_for_all", 1), (.str "easee_account_required", 2), (.str "whitelist", 3)]

/-- First-match lookup in the access table. -/
def alookup : List (AccessValue × Int) → AccessValue → Option Int
  | [], _ => none
  | (k, v) :: rest, a => if a = k then some v else alookup rest a

/-- One outbound PUT request: path and JSON body. -/
structure PutCall where
  path : String
  body : Json
deriving DecidableEq, Repr

/-- Model of `Charger.set_access` (charger.py lines 267-278): look the argument up in
the inline dict — a `KeyError` there happens before `easee.put` runs — and
otherwise issue one PUT with the mapped integer code as body. -/
def set_access (chargerId : String) (access : AccessValue) : Except PyError PutCall :=
  match alookup accessTable access with
  | some code => .ok ⟨"/api/chargers/" ++ chargerId ++ "/access", .int code⟩
  | none => .error (.keyError access.toJson)

/-- The PUT requests an invocation of `set_access` actually issues on the
transport: one on success, none when the dict lookup raised first. -/
def requestsIssued : Except PyError PutCall → List PutCall
  | .ok c => [c]
  | .error _ => []

/-- One call on the circuit collaborator, recording method and arguments. -/
inductive CircuitCall where
  | setDynamicCurrent (p1 : Int) (p2 p3 : Option Int) : CircuitCall
  | setMaxCurrent (p1 : Int) (p2 p3 : Option Int) : CircuitCall
  | setMaxOfflineCurrent (p1 : Int) (p2 p3 : Option Int) : CircuitCall
deriving DecidableEq, Repr

/-- The circuit collaborator, abstracted as the responses its three
current-setting methods return. -/
structure Circuit where
  set_dynamic_current : Int → Option Int → Option Int → Json
  set_max_current : Int → Option Int → Option Int → Json
  set_max_offline_current : Int → Option Int → Option Int → Json

/-- Model of `Charger.set_dynamic_charger_circuit_current` (charger.py 234-239):
with a circuit, delegate once and return its result; without one, only log
and return `None`.  The result records the circuit calls made and the
returned value. -/
def set_dynamic_charger_circuit_current (circuit : Option Circuit)
    (p1 : Int) (p2 p3 : Option Int) : List CircuitCall × Option Json :=
  match circuit with
  | some c => ([.setDynamicCurrent p1 p2 p3], some (c.set_dynamic_current p1 p2 p3))
  | none => ([], none)

/-- Model of `Charger.set_max_charger_circuit_current` (charger.py 241-246). -/
def set_max_charger_circuit_current (circuit : Option Circuit)
    (p1 : Int) (p2 p3 : Option Int) : List CircuitCall × Option Json :=
  match circuit with
  | some c => ([.setMaxCurrent p1 p2 p3], some (c.set_max_current p1 p2 p3))
  | none => ([], none)

/-- Model of `Charger.set_max_offline_charger_circuit_current` (248-255). -/
def set_max_offline_charger_circuit_current (circuit : Option Circuit)
    (p1 : Int) (p2 p3 : Option Int) : List CircuitCall × Option Json :=
  match circuit with
  | some c => ([.setMaxOfflineCurrent p1 p2 p3], some (c.set_max_offline_current p1 p2 p3))
  | none => ([], none)

/-- The sort key `x["carConnected"]` of a constructed session (charger.py
line 127); the timestamps the server sends are strings, and the claims are
stated for string-valued keys. -/
def sessKey (p : Payload) : String :=
  match pylookup p "carConnected" with
  | some (.str s) => s
  | _ => ""

/-- The comparison `list.sort(key=..., reverse=True)` sorts by: `a` before
`b` when `b`'s key is at most `a`'s (descending). -/
def sessLE (a b : Payload) : Prop := sessKey b ≤ sessKey a

instance : DecidableRel sessLE := fun a b =>
  inferInstanceAs (Decidable (sessKey b ≤ sessKey a))

instance : IsTotal Payload sessLE :=
  ⟨fun a b => (le_total (sessKey b) (sessKey a)).imp id id⟩

instance : IsTrans Payload sessLE :=
  ⟨fun _ _ _ h h' => le_trans h' h⟩

/-- Model of `Charger.get_sessions_between_dates` (charger.py lines 119-129): build a
`ChargerSession` from every element of the decoded response, then stable-sort
descending by `carConnected` (Python's `list.sort` is stable; `insertionSort`
is a stable sort realizing the same specification). -/
def get_sessions_between_dates (resp : List Payload) : Except PyError (List Payload) :=
  match resp.mapM ChargerSession.make with
  | .error e => .error e
  | .ok sessions => .ok (sessions.insertionSort sessLE)

instance {e a : Type} [DecidableEq e] [DecidableEq a] : DecidableEq (Except e a) := fun x y =>
  match x, y with
  | .ok v, .ok w =>
    if h : v = w then isTrue (by rw [h]) else isFalse (fun he => h (Except.ok.inj he))
  | .error v, .error w =>
    if h : v = w then isTrue (by rw [h]) else isFalse (fun he => h (Except.error.inj he))
  | .ok _, .error _ => isFalse (fun he => Except.noConfusion he)
  | .error _, .ok _ => isFalse (fun he => Except.noConfusion he)

/-! ### Dictionary lemmas -/

theorem pylookup_setAll_self (p : Payload) (k : String) (v : Json) :
    pylookup (setAll p k v) k = (pylookup p k).map (fun _ => v) := by
  induction p with
  | nil => rfl
  | cons hd tl ih =>
    obtain ⟨k', v'⟩ := hd
    by_cases h : k = k' <;> simp [setAll, pylookup, h, ih]

theorem pylookup_setAll_ne (p : Payload) (k : String) (v : Json) (k' : String)
    (h : k' ≠ k) : pylookup (setAll p k v) k' = pylookup p k' := by
  induction p with
  | nil => rfl
  | cons hd tl ih =>
    obtain ⟨k'', v''⟩ := hd
    by_cases h2 : k' = k''
    · subst h2
      have : ¬(k = k') := fun hk => h hk.symm
      simp [setAll, pylookup, this]
    · simp [setAll, pylookup, h2, ih]

theorem keys_setAll (p : Payload) (k : String) (v : Json) :
    keys (setAll p k v) = keys p := by
  induction p with
  | nil => rfl
  | cons hd tl ih =>
    obtain ⟨k', v'⟩ := hd
    simp [setAll, keys] at ih ⊢
    exact ih

theorem pylookup_append_none (p q : Payload) (k : String)
    (h : pylookup p k = none) : pylookup (p ++ q) k = pylookup q k := by
  induction p with
  | nil => rfl
  | cons hd tl ih =>
    obtain ⟨k', v'⟩ := hd
    by_cases h2 : k = k'
    · simp [pylookup, h2] at h
    · simp [pylookup, h2] at h ⊢
      exact ih h

theorem pylookup_append_some (p q : Payload) (k : String) (v : Json)
    (h : pylookup p k = some v) : pylookup (p ++ q) k = some v := by
  induction p with
  | nil => simp [pylookup] at h
  | cons hd tl ih =>
    obtain ⟨k', v'⟩ := hd
    by_cases h2 : k = k' <;> simp [pylookup, h2] at h ⊢
    · exact h
    · exact ih h

theorem pylookup_dictSet_self (p : Payload) (k : String) (v : Json) :
    pylookup (dictSet p k v) k = some v := by
  unfold dictSet
  by_cases h : hasKey p k
  · rw [if_pos h, pylookup_setAll_self]
    unfold hasKey at h
    obtain ⟨w, hw⟩ := Option.isSome_iff_exists.mp h
    simp [hw]
  · rw [if_neg h]
    unfold hasKey at h
    have hn : pylookup p k = none := by
      cases hp : pylookup p k
      · rfl
      · exact absurd (by simp [hp]) h
    rw [pylookup_append_none _ _ _ hn]
    simp [pylookup]

theorem pylookup_dictSet_ne (p : Payload) (k : String) (v : Json) (k' : String)
    (h : k' ≠ k) : pylookup (dictSet p k v) k' = pylookup p k' := by
  unfold dictSet
  by_cases hk : hasKey p k
  · rw [if_pos hk, pylookup_setAll_ne _ _ _ _ h]
  · rw [if_neg hk]
    cases hp : pylookup p k'
    · rw [pylookup_append_none _ _ _ hp]
      simp [pylookup, h]
    · exact pylookup_append_some _ _ _ _ hp

theorem mem_keys_dictSet (p : Payload) (k : String) (v : Json) (k' : String)
    (h : k' ∈ keys p) : k' ∈ keys (dictSet p k v) := by
  unfold dictSet
  by_cases hk : hasKey p k
  · rw [if_pos hk, keys_setAll]
    exact h
  · rw [if_neg hk]
    unfold keys at h ⊢
    simp only [List.map_append]
    exact List.mem_append_left _ h

theorem pyFloat_ok_float (v w : Json) (h : pyFloat v = .ok w) : ∃ q : Rat, w = .float q := by
  cases v with
  | null => simp [pyFloat] at h
  | int n => exact ⟨n, by simpa [pyFloat] using h.symm⟩
  | float q => exact ⟨q, by simpa [pyFloat] using h.symm⟩
  | bool b =>
    refine ⟨if b then 1 else 0, ?_⟩
    simp [pyFloat] at h
    exact h.symm
  | str s =>
    cases hp : parsePyFloat s with
    | none => simp [pyFloat, hp] at h
    | some q =>
      refine ⟨q, ?_⟩
      simp [pyFloat, hp] at h
      exact h.symm

/-! ### Claims -/

/-- C1: `get_basic_charge_plan` returns a null result (not a raised failure)
exactly when the transport raises the not-found condition; every other
transport failure raised during the GET or JSON decode propagates to the
caller unmodified; on the not-found path no `ChargerSchedule` is constructed
(the result is `none`, and a schedule is built only from an `ok` response). -/
theorem basic_charge_plan_not_found :
    (∀ resp : Except TransportError Payload,
       (get_basic_charge_plan resp = .ok none ↔ resp = .error .notFound)) ∧
    (∀ e : TransportError, e ≠ .notFound →
       get_basic_charge_plan (.error e) = .error e) ∧
    (∀ plan : Payload,
       get_basic_charge_plan (.ok plan) = .ok (some (ChargerSchedule.make plan))) := by
  refine ⟨?_, ?_, ?_⟩
  · intro resp
    cases resp with
    | ok p => simp [get_basic_charge_plan]
    | error e => cases e <;> simp [get_basic_charge_plan]
  · intro e he
    cases e with
    | notFound => exact absurd rfl he
    | failure d => rfl
  · intro plan
    rfl

theorem basic_charge_plan_not_found_witness :
    (get_basic_charge_plan (.error .notFound) = .ok none ↔
      (Except.error TransportError.notFound : Except TransportError Payload) =
        .error .notFound) ∧
    get_basic_charge_plan (.error (.failure "HTTP 500")) = .error (.failure "HTTP 500") ∧
    get_basic_charge_plan (.ok [("id", Json.int 1)]) =
      .ok (some (ChargerSchedule.make [("id", Json.int 1)])) :=
  ⟨basic_charge_plan_not_found.1 _,
   basic_charge_plan_not_found.2.1 _ (by decide),
   basic_charge_plan_not_found.2.2 _⟩

/-- C2 counterexample: on a payload whose `reasonForNoCurrent` is null, the
decoded `ChargerState` yields `"(None) No reason"` — the f-string wraps the
table's `"No reason"` label in the `"(None) "` code prefix — and not the bare
string `"No reason"` the claim states. -/
theorem decoded_null_reason_counterexample :
    ChargerState.make [("chargerOpMode", Json.int 3), ("reasonForNoCurrent", Json.null)]
        false =
      .ok [("chargerOpMode", Json.str "CHARGING"),
           ("reasonForNoCurrent", Json.str "(None) No reason")] ∧
    ("(None) No reason" : String) ≠ "No reason" := by
  exact ⟨rfl, by decide⟩

/-- C2 (amended): for a payload whose `reasonForNoCurrent` field is null (and,
in decoded mode, whose `chargerOpMode` is a known code), `ChargerState`
constructed in decoded mode yields the string `"(None) No reason"` for that
field — the `"No reason"` table label prefixed with the rendered null code —
and `ChargerState` constructed in raw mode yields the literal string
`"none"`. -/
theorem null_reason_decoding :
    (∀ (p : Payload) (op : Json) (lbl : String),
       pylookup p "reasonForNoCurrent" = some .null →
       pylookup p "chargerOpMode" = some op →
       pyDictGetInt STATUS op = some lbl →
       ∃ res, ChargerState.make p false = .ok res ∧
         pylookup res "reasonForNoCurrent" = some (.str "(None) No reason")) ∧
    (∀ p : Payload,
       pylookup p "reasonForNoCurrent" = some .null →
       ∃ res, ChargerState.make p true = .ok res ∧
         pylookup res "reasonForNoCurrent" = some (.str "none")) := by
  constructor
  · intro p op lbl h1 h2 h3
    simp only [ChargerState.make, h2, h3, h1]
    refine ⟨_, rfl, ?_⟩
    rw [pylookup_dictSet_self]
    rfl
  · intro p h1
    simp only [ChargerState.make, h1]
    refine ⟨_, rfl, ?_⟩
    rw [pylookup_dictSet_self]
    simp

theorem null_reason_decoding_witness :
    (∃ res, ChargerState.make [("chargerOpMode", Json.int 3),
        ("reasonForNoCurrent", Json.null)] false = .ok res ∧
      pylookup res "reasonForNoCurrent" = some (.str "(None) No reason")) ∧
    (∃ res, ChargerState.make [("chargerOpMode", Json.int 3),
        ("reasonForNoCurrent", Json.null)] true = .ok res ∧
      pylookup res "reasonForNoCurrent" = some (.str "none")) :=
  ⟨null_reason_decoding.1 _ (Json.int 3) "CHARGING" (by decide) (by decide) (by decide),
   null_reason_decoding.2 _ (by decide)⟩

/-- C4: for every non-null integer reason code, decoded `ChargerState` yields
`reasonForNoCurrent` equal to `"(<code>) <label>"` where the label is the
`REASON_FOR_NO_CURRENT` table entry when present and `"Unknown"` otherwise:
the reason decoding itself never fails and keeps the numeric code in the
text. -/
theorem reason_decode_total :
    ∀ (p : Payload) (n : Int) (op : Json) (lbl : String),
      pylookup p "chargerOpMode" = some op →
      pyDictGetInt STATUS op = some lbl →
      pylookup p "reasonForNoCurrent" = some (.int n) →
      ∃ res, ChargerState.make p false = .ok res ∧
        pylookup res "reasonForNoCurrent" =
          some (.str ("(" ++ toString n ++ ") " ++
            ((rlookup REASON_FOR_NO_CURRENT (some n)).getD "Unknown"))) := by
  intro p n op lbl h1 h2 h3
  simp only [ChargerState.make, h1, h2, h3]
  refine ⟨_, rfl, ?_⟩
  rw [pylookup_dictSet_self]
  rfl

theorem reason_decode_total_witness :
    ∃ res, ChargerState.make [("chargerOpMode", Json.int 3),
        ("reasonForNoCurrent", Json.int 0)] false = .ok res ∧
      pylookup res "reasonForNoCurrent" =
        some (.str ("(" ++ toString (0 : Int) ++ ") " ++
          ((rlookup REASON_FOR_NO_CURRENT (some 0)).getD "Unknown"))) :=
  reason_decode_total _ 0 (Json.int 3) "CHARGING" (by decide) (by decide) (by decide)

/-- C3: codes 0-6 of `chargerOpMode` decode to exactly OFFLINE, DISCONNECTED,
AWAITING_START, CHARGING, COMPLETED, ERROR, READY_TO_CHARGE; a code outside
0-6 makes decoded construction raise a `KeyError` instead of producing a
value; `localNodeType` and `phaseMode` in decoded `ChargerConfig` map through
their 2- and 3-entry tables and raise a `KeyError` on unknown codes. -/
theorem enum_tables_strict_decode :
    (∀ (p : Payload) (c : Int) (lab : String) (r : Json),
       (c, lab) ∈ ([(0, "OFFLINE"), (1, "DISCONNECTED"), (2, "AWAITING_START"),
         (3, "CHARGING"), (4, "COMPLETED"), (5, "ERROR"), (6, "READY_TO_CHARGE")] :
           List (Int × String)) →
       pylookup p "chargerOpMode" = some (.int c) →
       pylookup p "reasonForNoCurrent" = some r →
       ∃ res, ChargerState.make p false = .ok res ∧
         pylookup res "chargerOpMode" = some (.str lab)) ∧
    (∀ (p : Payload) (c : Int),
       pylookup p "chargerOpMode" = some (.int c) → (c < 0 ∨ 6 < c) →
       ChargerState.make p false = .error (.keyError (.int c))) ∧
    (∀ (p : Payload) (c m : Int) (clab mlab : String),
       (c, clab) ∈ ([(1, "Master"), (2, "Extender")] : List (Int × String)) →
       (m, mlab) ∈ ([(1, "Locked to single phase"), (2, "Auto"),
         (3, "Locked to three phase")] : List (Int × String)) →
       pylookup p "localNodeType" = some (.int c) →
       pylookup p "phaseMode" = some (.int m) →
       ∃ res, ChargerConfig.make p false = .ok res ∧
         pylookup res "localNodeType" = some (.str clab) ∧
         pylookup res "phaseMode" = some (.str mlab)) ∧
    (∀ (p : Payload) (c : Int),
       pylookup p "localNodeType" = some (.int c) → c ≠ 1 → c ≠ 2 →
       ChargerConfig.make p false = .error (.keyError (.int c))) ∧
    (∀ (p : Payload) (c m : Int),
       pylookup p "localNodeType" = some (.int c) → (c = 1 ∨ c = 2) →
       pylookup p "phaseMode" = some (.int m) → m ≠ 1 → m ≠ 2 → m ≠ 3 →
       ChargerConfig.make p false = .error (.keyError (.int m))) := by
  refine ⟨?_, ?_, ?_, ?_, ?_⟩
  · intro p c lab r hmem h1 h2
    have hval : pyDictGetInt STATUS (.int c) = some lab := by
      simp only [List.mem_cons, List.not_mem_nil, or_false, Prod.mk.injEq] at hmem
      rcases hmem with ⟨rfl, rfl⟩ | ⟨rfl, rfl⟩ | ⟨rfl, rfl⟩ | ⟨rfl, rfl⟩ |
        ⟨rfl, rfl⟩ | ⟨rfl, rfl⟩ | ⟨rfl, rfl⟩ <;> rfl
    simp only [ChargerState.make, h1, hval, h2]
    refine ⟨_, rfl, ?_⟩
    rw [pylookup_dictSet_ne _ _ _ _ (by decide), pylookup_dictSet_self]
  · intro p c h1 hout
    have hc0 : c ≠ 0 := by omega
    have hc1 : c ≠ 1 := by omega
    have hc2 : c ≠ 2 := by omega
    have hc3 : c ≠ 3 := by omega
    have hc4 : c ≠ 4 := by omega
    have hc5 : c ≠ 5 := by omega
    have hc6 : c ≠ 6 := by omega
    have hnone : pyDictGetInt STATUS (.int c) = none := by
      simp [pyDictGetInt, STATUS, tlookup, hc0, hc1, hc2, hc3, hc4, hc5, hc6]
    simp only [ChargerState.make, h1, hnone]
  · intro p c m clab mlab hcm hmm h1 h2
    have hcval : pyDictGetInt NODE_TYPE (.int c) = some clab := by
      simp only [List.mem_cons, List.not_mem_nil, or_false, Prod.mk.injEq] at hcm
      rcases hcm with ⟨rfl, rfl⟩ | ⟨rfl, rfl⟩ <;> rfl
    have hmval : pyDictGetInt PHASE_MODE (.int m) = some mlab := by
      simp only [List.mem_cons, List.not_mem_nil, or_false, Prod.mk.injEq] at hmm
      rcases hmm with ⟨rfl, rfl⟩ | ⟨rfl, rfl⟩ | ⟨rfl, rfl⟩ <;> rfl
    simp only [ChargerConfig.make, h1, hcval, h2, hmval]
    refine ⟨_, rfl, ?_, ?_⟩
    · rw [pylookup_dictSet_ne _ _ _ _ (by decide), pylookup_dictSet_self]
    · rw [pylookup_dictSet_self]
  · intro p c h1 hc1 hc2
    have hnone : pyDictGetInt NODE_TYPE (.int c) = none := by
      simp [pyDictGetInt, NODE_TYPE, tlookup, hc1, hc2]
    simp only [ChargerConfig.make, h1, hnone]
  · intro p c m h1 hc h2 hm1 hm2 hm3
    have hcval : ∃ clab, pyDictGetInt NODE_TYPE (.int c) = some clab := by
      rcases hc with rfl | rfl
      · exact ⟨"Master", rfl⟩
      · exact ⟨"Extender", rfl⟩
    obtain ⟨clab, hcval⟩ := hcval
    have hnone : pyDictGetInt PHASE_MODE (.int m) = none := by
      simp [pyDictGetInt, PHASE_MODE, tlookup, hm1, hm2, hm3]
    simp only [ChargerConfig.make, h1, hcval, h2, hnone]

theorem enum_tables_strict_decode_witness :
    (∃ res, ChargerState.make [("chargerOpMode", Json.int 3),
        ("reasonForNoCurrent", Json.int 0)] false = .ok res ∧
      pylookup res "chargerOpMode" = some (.str "CHARGING")) ∧
    ChargerState.make [("chargerOpMode", Json.int 7),
        ("reasonForNoCurrent", Json.int 0)] false = .error (.keyError (.int 7)) ∧
    (∃ res, ChargerConfig.make [("localNodeType", Json.int 1),
        ("phaseMode", Json.int 2)] false = .ok res ∧
      pylookup res "localNodeType" = some (.str "Master") ∧
      pylookup res "phaseMode" = some (.str "Auto")) ∧
    ChargerConfig.make [("localNodeType", Json.int 3),
        ("phaseMode", Json.int 2)] false = .error (.keyError (.int 3)) ∧
    ChargerConfig.make [("localNodeType", Json.int 1),
        ("phaseMode", Json.int 4)] false = .error (.keyError (.int 4)) :=
  ⟨enum_tables_strict_decode.1 _ 3 "CHARGING" (.int 0) (by decide) (by decide) (by decide),
   enum_tables_strict_decode.2.1 _ 7 (by decide) (by omega),
   enum_tables_strict_decode.2.2.1 _ 1 2 "Master" "Auto" (by decide) (by decide)
     (by decide) (by decide),
   enum_tables_strict_decode.2.2.2.1 _ 3 (by decide) (by decide) (by decide),
   enum_tables_strict_decode.2.2.2.2 _ 1 4 (by decide) (Or.inl rfl) (by decide)
     (by decide) (by decide) (by decide)⟩

/-- C6: `set_access "whitelist"` and `set_access 3` issue the identical
outbound PUT with integer body 3 (likewise `"open_for_all"` with 1 and
`"easee_account_required"` with 2), and any argument outside the six mapped
keys fails with a `KeyError` raised by the inline dict lookup, so no request
is issued on the transport. -/
theorem set_access_symbolic_numeric :
    (∀ chargerId : String,
       set_access chargerId (.str "whitelist") = set_access chargerId (.int 3) ∧
       set_access chargerId (.int 3) =
         .ok ⟨"/api/chargers/" ++ chargerId ++ "/access", .int 3⟩ ∧
       set_access chargerId (.str "open_for_all") = set_access chargerId (.int 1) ∧
       set_access chargerId (.int 1) =
         .ok ⟨"/api/chargers/" ++ chargerId ++ "/access", .int 1⟩ ∧
       set_access chargerId (.str "easee_account_required") = set_access chargerId (.int 2) ∧
       set_access chargerId (.int 2) =
         .ok ⟨"/api/chargers/" ++ chargerId ++ "/access", .int 2⟩) ∧
    (∀ (chargerId : String) (a : AccessValue),
       a ∉ ([.int 1, .int 2, .int 3, .str "open_for_all",
         .str "easee_account_required", .str "whitelist"] : List AccessValue) →
       set_access chargerId a = .error (.keyError a.toJson) ∧
       requestsIssued (set_access chargerId a) = []) := by
  constructor
  · intro chargerId
    exact ⟨rfl, rfl, rfl, rfl, rfl, rfl⟩
  · intro chargerId a hnot
    simp only [List.mem_cons, List.not_mem_nil, or_false, not_or] at hnot
    obtain ⟨h1, h2, h3, h4, h5, h6⟩ := hnot
    have hnone : alookup accessTable a = none := by
      simp [alookup, accessTable, h1, h2, h3, h4, h5, h6]
    constructor
    · simp only [set_access, hnone]
    · simp only [requestsIssued, set_access, hnone]

theorem set_access_symbolic_numeric_witness :
    (set_access "EH12345" (.str "whitelist") = set_access "EH12345" (.int 3) ∧
     set_access "EH12345" (.int 3) =
       .ok ⟨"/api/chargers/" ++ "EH12345" ++ "/access", .int 3⟩ ∧
     set_access "EH12345" (.str "open_for_all") = set_access "EH12345" (.int 1) ∧
     set_access "EH12345" (.int 1) =
       .ok ⟨"/api/chargers/" ++ "EH12345" ++ "/access", .int 1⟩ ∧
     set_access "EH12345" (.str "easee_account_required") = set_access "EH12345" (.int 2) ∧
     set_access "EH12345" (.int 2) =
       .ok ⟨"/api/chargers/" ++ "EH12345" ++ "/access", .int 2⟩) ∧
    (set_access "EH12345" (.int 5) = .error (.keyError (.int 5)) ∧
     requestsIssued (set_access "EH12345" (.int 5)) = []) :=
  ⟨set_access_symbolic_numeric.1 "EH12345",
   set_access_symbolic_numeric.2 "EH12345" (.int 5) (by decide)⟩

/-- C7: raw-mode `ChargerState` and `ChargerConfig` leave every field other
than `ChargerState.reasonForNoCurrent` unchanged (raw `ChargerConfig` is the
identity on the payload), the only rewrite being a null `reasonForNoCurrent`
normalized to `"none"`; and in both raw and decoded mode every key of the
original payload is still a key of the resulting record. -/
theorem raw_mode_frame :
    (∀ (p res : Payload), ChargerState.make p true = .ok res →
       (∀ k, k ≠ "reasonForNoCurrent" → pylookup res k = pylookup p k) ∧
       (pylookup p "reasonForNoCurrent" = some .null →
          pylookup res "reasonForNoCurrent" = some (.str "none")) ∧
       (∀ v, pylookup p "reasonForNoCurrent" = some v → v ≠ .null →
          pylookup res "reasonForNoCurrent" = some v) ∧
       (∀ k, k ∈ keys p → k ∈ keys res)) ∧
    (∀ p : Payload, ChargerConfig.make p true = .ok p) ∧
    (∀ (p res : Payload), ChargerState.make p false = .ok res →
       ∀ k, k ∈ keys p → k ∈ keys res) ∧
    (∀ (p res : Payload), ChargerConfig.make p false = .ok res →
       ∀ k, k ∈ keys p → k ∈ keys res) := by
  refine ⟨?_, fun p => rfl, ?_, ?_⟩
  · intro p res h
    rcases hr : pylookup p "reasonForNoCurrent" with _ | r
    · simp only [ChargerState.make, hr] at h
      exact Except.noConfusion h
    · simp only [ChargerState.make, hr, Except.ok.injEq] at h
      subst h
      refine ⟨?_, ?_, ?_, ?_⟩
      · intro k hk
        exact pylookup_dictSet_ne _ _ _ _ hk
      · intro hnull
        have hrn : r = Json.null := Option.some.inj hnull
        subst hrn
        rw [pylookup_dictSet_self]
        simp
      · intro v hv hvne
        have hrv : r = v := Option.some.inj hv
        subst hrv
        rw [pylookup_dictSet_self, if_neg hvne]
      · intro k hk
        exact mem_keys_dictSet _ _ _ _ hk
  · intro p res h
    rcases h1 : pylookup p "chargerOpMode" with _ | op
    · simp only [ChargerState.make, h1] at h
      exact Except.noConfusion h
    · rcases h2 : pyDictGetInt STATUS op with _ | lbl
      · simp only [ChargerState.make, h1, h2] at h
        exact Except.noConfusion h
      · rcases h3 : pylookup p "reasonForNoCurrent" with _ | r
        · simp only [ChargerState.make, h1, h2, h3] at h
          exact Except.noConfusion h
        · simp only [ChargerState.make, h1, h2, h3, Except.ok.injEq] at h
          subst h
          intro k hk
          exact mem_keys_dictSet _ _ _ _ (mem_keys_dictSet _ _ _ _ hk)
  · intro p res h
    rcases h1 : pylookup p "localNodeType" with _ | nt
    · simp only [ChargerConfig.make, h1] at h
      exact Except.noConfusion h
    · rcases h2 : pyDictGetInt NODE_TYPE nt with _ | ntl
      · simp only [ChargerConfig.make, h1, h2] at h
        exact Except.noConfusion h
      · rcases h3 : pylookup p "phaseMode" with _ | pm
        · simp only [ChargerConfig.make, h1, h2, h3] at h
          exact Except.noConfusion h
        · rcases h4 : pyDictGetInt PHASE_MODE pm with _ | pml
          · simp only [ChargerConfig.make, h1, h2, h3, h4] at h
            exact Except.noConfusion h
          · simp only [ChargerConfig.make, h1, h2, h3, h4, Except.ok.injEq] at h
            subst h
            intro k hk
            exact mem_keys_dictSet _ _ _ _ (mem_keys_dictSet _ _ _ _ hk)

theorem raw_mode_frame_witness :
    ((∀ k, k ≠ "reasonForNoCurrent" →
        pylookup [("chargerOpMode", Json.str "CHARGING"),
          ("reasonForNoCurrent", Json.str "none")] k =
        pylookup [("chargerOpMode", Json.str "CHARGING"),
          ("reasonForNoCurrent", Json.null)] k) ∧
     (pylookup [("chargerOpMode", Json.str "CHARGING"),
          ("reasonForNoCurrent", Json.null)] "reasonForNoCurrent" = some .null →
        pylookup [("chargerOpMode", Json.str "CHARGING"),
          ("reasonForNoCurrent", Json.str "none")] "reasonForNoCurrent" =
          some (.str "none")) ∧
     (∀ v, pylookup [("chargerOpMode", Json.str "CHARGING"),
          ("reasonForNoCurrent", Json.null)] "reasonForNoCurrent" = some v →
        v ≠ .null →
        pylookup [("chargerOpMode", Json.str "CHARGING"),
          ("reasonForNoCurrent", Json.str "none")] "reasonForNoCurrent" = some v) ∧
     (∀ k, k ∈ keys [("chargerOpMode", Json.str "CHARGING"),
          ("reasonForNoCurrent", Json.null)] →
        k ∈ keys [("chargerOpMode", Json.str "CHARGING"),
          ("reasonForNoCurrent", Json.str "none")])) ∧
    ChargerConfig.make [("phaseMode", Json.int 2)] true = .ok [("phaseMode", Json.int 2)] :=
  ⟨raw_mode_frame.1 [("chargerOpMode", Json.str "CHARGING"),
      ("reasonForNoCurrent", Json.null)] _ rfl,
   raw_mode_frame.2.1 [("phaseMode", Json.int 2)]⟩

/-- C8: the constructed `ChargerSession`'s `kiloWattHours` value is always a
float, including when the source field is the integer `10` or the string
`"10.5"`; when the source field is absent (`.get` returns `None`) the
construction raises `TypeError` from `float(None)` rather than defaulting
to zero. -/
theorem kwh_always_float :
    (∀ (p res : Payload), ChargerSession.make p = .ok res →
       ∃ q : Rat, pylookup res "kiloWattHours" = some (.float q)) ∧
    (∀ p : Payload, pylookup p "kiloWattHours" = some (.int 10) →
       ∃ res, ChargerSession.make p = .ok res ∧
         pylookup res "kiloWattHours" = some (.float 10)) ∧
    (∀ p : Payload, pylookup p "kiloWattHours" = some (.str "10.5") →
       ∃ res, ChargerSession.make p = .ok res ∧
         pylookup res "kiloWattHours" = some (.float (21 / 2))) ∧
    (∀ p : Payload, pylookup p "kiloWattHours" = none →
       ChargerSession.make p = .error .typeError) := by
  refine ⟨?_, ?_, ?_, ?_⟩
  · intro p res h
    rcases hf : pyFloat ((pylookup p "kiloWattHours").getD .null) with e | kwh
    · simp only [ChargerSession.make, hf] at h
      exact Except.noConfusion h
    · obtain ⟨q, rfl⟩ := pyFloat_ok_float _ _ hf
      simp only [ChargerSession.make, hf, Except.ok.injEq] at h
      subst h
      exact ⟨q, by simp [pylookup]⟩
  · intro p h
    have hf : pyFloat ((pylookup p "kiloWattHours").getD .null) = .ok (.float 10) := by
      rw [h]; rfl
    simp only [ChargerSession.make, hf]
    exact ⟨_, rfl, by simp [pylookup]⟩
  · intro p h
    have hf : pyFloat ((pylookup p "kiloWattHours").getD .null) = .ok (.float (21 / 2)) := by
      rw [h]
      have h1 : pyFloat ((some (Json.str "10.5")).getD .null) =
          .ok (.float (((1 : Int) : Rat) *
            (((10 : Nat) : Rat) + ((5 : Nat) : Rat) / (10 : Rat) ^ (1 : Nat)))) := rfl
      rw [h1]
      simp only [Except.ok.injEq, Json.float.injEq]
      norm_num
    simp only [ChargerSession.make, hf]
    exact ⟨_, rfl, by simp [pylookup]⟩
  · intro p h
    have hf : pyFloat ((pylookup p "kiloWattHours").getD .null) = .error .typeError := by
      rw [h]; rfl
    simp only [ChargerSession.make, hf]

theorem kwh_always_float_witness :
    (∃ res, ChargerSession.make [("carConnected", Json.str "T1"),
        ("kiloWattHours", Json.int 10)] = .ok res ∧
      pylookup res "kiloWattHours" = some (.float 10)) ∧
    (∃ res, ChargerSession.make [("carConnected", Json.str "T1"),
        ("kiloWattHours", Json.str "10.5")] = .ok res ∧
      pylookup res "kiloWattHours" = some (.float (21 / 2))) ∧
    ChargerSession.make [("carConnected", Json.str "T1")] = .error .typeError :=
  ⟨kwh_always_float.2.1 _ (by decide),
   kwh_always_float.2.2.1 _ (by decide),
   kwh_always_float.2.2.2 _ (by decide)⟩

/-- C9: each of the three circuit-delegated current setters, on a `Charger`
whose circuit reference is `None`, performs no circuit (hence no transport)
call and returns no result; with a circuit it delegates exactly one call to
the circuit's analogous method and returns that method's result. -/
theorem circuit_delegation :
    (∀ (p1 : Int) (p2 p3 : Option Int) (circuit : Option Circuit),
       circuit = none →
       set_dynamic_charger_circuit_current circuit p1 p2 p3 = ([], none) ∧
       set_max_charger_circuit_current circuit p1 p2 p3 = ([], none) ∧
       set_max_offline_charger_circuit_current circuit p1 p2 p3 = ([], none)) ∧
    (∀ (p1 : Int) (p2 p3 : Option Int) (c : Circuit),
       set_dynamic_charger_circuit_current (some c) p1 p2 p3 =
         ([.setDynamicCurrent p1 p2 p3], some (c.set_dynamic_current p1 p2 p3)) ∧
       set_max_charger_circuit_current (some c) p1 p2 p3 =
         ([.setMaxCurrent p1 p2 p3], some (c.set_max_current p1 p2 p3)) ∧
       set_max_offline_charger_circuit_current (some c) p1 p2 p3 =
         ([.setMaxOfflineCurrent p1 p2 p3], some (c.set_max_offline_current p1 p2 p3))) := by
  constructor
  · intro p1 p2 p3 circuit h
    subst h
    exact ⟨rfl, rfl, rfl⟩
  · intro p1 p2 p3 c
    exact ⟨rfl, rfl, rfl⟩

theorem circuit_delegation_witness :
    set_dynamic_charger_circuit_current none 16 none none = ([], none) ∧
    set_max_charger_circuit_current none 16 none none = ([], none) ∧
    set_max_offline_charger_circuit_current none 16 none none = ([], none) :=
  circuit_delegation.1 16 none none none rfl

/-- C10: a payload lacking `reasonForNoCurrent` makes `ChargerState`
construction raise a `KeyError` in raw mode and in decoded mode (raw mode is
not total), and decoded mode additionally requires the `chargerOpMode` key;
`ChargerSchedule` construction never fails on a missing field — each of
`id`, `chargeStartTime`, `chargeStopTime`, `repeat` defaults to null. -/
theorem missing_key_behavior :
    (∀ p : Payload, pylookup p "reasonForNoCurrent" = none →
       ChargerState.make p true = .error (.keyError (.str "reasonForNoCurrent"))) ∧
    (∀ p : Payload, pylookup p "reasonForNoCurrent" = none →
       ∃ k, ChargerState.make p false = .error (.keyError k)) ∧
    (∀ p : Payload, pylookup p "chargerOpMode" = none →
       ChargerState.make p false = .error (.keyError (.str "chargerOpMode"))) ∧
    (∀ (p : Payload) (f : String),
       f ∈ (["id", "chargeStartTime", "chargeStopTime", "repeat"] : List String) →
       pylookup p f = none →
       pylookup (ChargerSchedule.make p) f = some .null) := by
  refine ⟨?_, ?_, ?_, ?_⟩
  · intro p h
    simp only [ChargerState.make, h]
  · intro p h
    rcases h1 : pylookup p "chargerOpMode" with _ | op
    · exact ⟨.str "chargerOpMode", by simp only [ChargerState.make, h1]⟩
    · rcases h2 : pyDictGetInt STATUS op with _ | lbl
      · exact ⟨op, by simp only [ChargerState.make, h1, h2]⟩
      · exact ⟨.str "reasonForNoCurrent", by simp only [ChargerState.make, h1, h2, h]⟩
  · intro p h
    simp only [ChargerState.make, h]
  · intro p f hmem h
    simp only [List.mem_cons, List.not_mem_nil, or_false] at hmem
    rcases hmem with rfl | rfl | rfl | rfl <;>
      simp [ChargerSchedule.make, pylookup, h]

theorem missing_key_behavior_witness :
    ChargerState.make [("chargerOpMode", Json.int 3)] true =
      .error (.keyError (.str "reasonForNoCurrent")) ∧
    (∃ k, ChargerState.make [("chargerOpMode", Json.int 3)] false =
      .error (.keyError k)) ∧
    ChargerState.make [("reasonForNoCurrent", Json.null)] false =
      .error (.keyError (.str "chargerOpMode")) ∧
    pylookup (ChargerSchedule.make [("id", Json.int 1)]) "repeat" = some .null :=
  ⟨missing_key_behavior.1 _ (by decide),
   missing_key_behavior.2.1 _ (by decide),
   missing_key_behavior.2.2.1 _ (by decide),
   missing_key_behavior.2.2.2 _ "repeat" (by decide) (by decide)⟩

/-- C5: whenever `get_sessions_between_dates` succeeds, its output is the
constructed `ChargerSession` records (a permutation of them, i.e. a
post-fetch sort) in descending order of `carConnected`, and the sort is
stable — for every key value, the records carrying it appear in their
original response order. -/
theorem sessions_sorted_descending :
    ∀ (resp out : List Payload), get_sessions_between_dates resp = .ok out →
      ∃ sessions : List Payload,
        resp.mapM ChargerSession.make = .ok sessions ∧
        out.Pairwise (fun a b => sessKey b ≤ sessKey a) ∧
        out.Perm sessions ∧
        ∀ k : String, out.filter (fun s => sessKey s == k) =
          sessions.filter (fun s => sessKey s == k) := by
  intro resp out h
  rcases hm : resp.mapM ChargerSession.make with e | sessions
  · simp only [get_sessions_between_dates, hm] at h
    exact Except.noConfusion h
  · simp only [get_sessions_between_dates, hm, Except.ok.injEq] at h
    subst h
    refine ⟨sessions, rfl, ?_, ?_, ?_⟩
    · exact List.sorted_insertionSort sessLE sessions
    · exact List.perm_insertionSort sessLE sessions
    · intro k
      have hpw : (sessions.filter (fun s => sessKey s == k)).Pairwise sessLE := by
        apply List.pairwise_of_forall_mem_list
        intro a ha b hb
        have ha2 : sessKey a = k := by simpa using (List.mem_filter.mp ha).2
        have hb2 : sessKey b = k := by simpa using (List.mem_filter.mp hb).2
        unfold sessLE
        rw [ha2, hb2]
      have hsub : List.Sublist (sessions.filter (fun s => sessKey s == k))
          (sessions.insertionSort sessLE) :=
        List.sublist_insertionSort hpw (List.filter_sublist _)
      have hsub2 : List.Sublist (sessions.filter (fun s => sessKey s == k))
          ((sessions.insertionSort sessLE).filter (fun s => sessKey s == k)) := by
        have := hsub.filter (fun s => sessKey s == k)
        rwa [List.filter_eq_self.mpr (fun a ha => (List.mem_filter.mp ha).2)] at this
      have hlen : ((sessions.insertionSort sessLE).filter
          (fun s => sessKey s == k)).length =
          (sessions.filter (fun s => sessKey s == k)).length :=
        ((List.perm_insertionSort sessLE sessions).filter _).length_eq
      exact (hsub2.eq_of_length hlen.symm).symm

theorem sessions_sorted_descending_witness :
    ∃ sessions : List Payload,
      ([[("carConnected", Json.str "T1"), ("kiloWattHours", Json.int 1)],
        [("carConnected", Json.str "T3"), ("kiloWattHours", Json.int 3)],
        [("carConnected", Json.str "T2"), ("kiloWattHours", Json.int 2)]] :
          List Payload).mapM ChargerSession.make = .ok sessions ∧
      ([[("carConnected", Json.str "T3"), ("carDisconnected", Json.null),
          ("kiloWattHours", Json.float 3)],
        [("carConnected", Json.str "T2"), ("carDisconnected", Json.null),
          ("kiloWattHours", Json.float 2)],
        [("carConnected", Json.str "T1"), ("carDisconnected", Json.null),
          ("kiloWattHours", Json.float 1)]] : List Payload).Pairwise
        (fun a b => sessKey b ≤ sessKey a) ∧
      ([[("carConnected", Json.str "T3"), ("carDisconnected", Json.null),
          ("kiloWattHours", Json.float 3)],
        [("carConnected", Json.str "T2"), ("carDisconnected", Json.null),
          ("kiloWattHours", Json.float 2)],
        [("carConnected", Json.str "T1"), ("carDisconnected", Json.null),
          ("kiloWattHours", Json.float 1)]] : List Payload).Perm sessions ∧
      ∀ k : String,
        ([[("carConnected", Json.str "T3"), ("carDisconnected", Json.null),
            ("kiloWattHours", Json.float 3)],
          [("carConnected", Json.str "T2"), ("carDisconnected", Json.null),
            ("kiloWattHours", Json.float 2)],
          [("carConnected", Json.str "T1"), ("carDisconnected", Json.null),
            ("kiloWattHours", Json.float 1)]] : List Payload).filter
          (fun s => sessKey s == k) =
        sessions.filter (fun s => sessKey s == k) :=
  sessions_sorted_descending
    [[("carConnected", Json.str "T1"), ("kiloWattHours", Json.int 1)],
     [("carConnected", Json.str "T3"), ("kiloWattHours", Json.int 3)],
     [("carConnected", Json.str "T2"), ("kiloWattHours", Json.int 2)]]
    [[("carConnected", Json.str "T3"), ("carDisconnected", Json.null),
       ("kiloWattHours", Json.float 3)],
     [("carConnected", Json.str "T2"), ("carDisconnected", Json.null),
       ("kiloWattHours", Json.float 2)],
     [("carConnected", Json.str "T1"), ("carDisconnected", Json.null),
       ("kiloWattHours", Json.float 1)]]
    (by
      have hm : ([[("carConnected", Json.str "T1"), ("kiloWattHours", Json.int 1)],
          [("carConnected", Json.str "T3"), ("kiloWattHours", Json.int 3)],
          [("carConnected", Json.str "T2"), ("kiloWattHours", Json.int 2)]] :
            List Payload).mapM ChargerSession.make =
          .ok [[("carConnected", Json.str "T1"), ("carDisconnected", Json.null),
                 ("kiloWattHours", Json.float 1)],
               [("carConnected", Json.str "T3"), ("carDisconnected", Json.null),
                 ("kiloWattHours", Json.float 3)],
               [("carConnected", Json.str "T2"), ("carDisconnected", Json.null),
                 ("kiloWattHours", Json.float 2)]] := rfl
      simp only [get_sessions_between_dates, hm]
      have h1 : ¬ sessLE
          [("carConnected", Json.str "T1"), ("carDisconnected", Json.null),
            ("kiloWattHours", Json.float 1)]
          [("carConnected", Json.str "T3"), ("carDisconnected", Json.null),
            ("kiloWattHours", Json.float 3)] := by
        show ¬ (("T3" : String) ≤ "T1")
        simp
        decide
      have h2 : ¬ sessLE
          [("carConnected", Json.str "T1"), ("carDisconnected", Json.null),
            ("kiloWattHours", Json.float 1)]
          [("carConnected", Json.str "T2"), ("carDisconnected", Json.null),
            ("kiloWattHours", Json.float 2)] := by
        show ¬ (("T2" : String) ≤ "T1")
        simp
        decide
      have h3 : sessLE
          [("carConnected", Json.str "T3"), ("carDisconnected", Json.null),
            ("kiloWattHours", Json.float 3)]
          [("carConnected", Json.str "T2"), ("carDisconnected", Json.null),
            ("kiloWattHours", Json.float 2)] := by
        show ("T2" : String) ≤ "T3"
        simp
        decide
      simp only [List.insertionSort, List.orderedInsert, if_neg h1, if_neg h2,
        if_pos h3])

end Pyeasee
